import Mathlib

/-!
Verification of the veadk-go observability engine: the trace correlation
registry (observability/registry.go), the export-time translation wrapper
(observability/translator.go) and the span-start enrichment processor
(veadkSpanProcessor).  Trace and span identifiers are modelled as naturals
with zero as the invalid identifier; attribute values are the string values
the engine reads; JSON encoding/decoding (the external encoding/json
library) is abstracted as a codec parameter.
-/

/-! ## Constants

Values taken from observability/constants.go where present.  The
remaining identifiers live in a constants file of the observability
package that is not part of the provided sources; their values are
modelled from the spec and from the literal strings used by earlier
versions of the same files (for example the enrichment processor uses
the literals "invoke_agent ", "generate_content " and "execute_tool "
for the prefixes). -/

def SpanInvocation : String := "invocation"

def SpanCallLLM : String := "call_llm"

/-- Modelled from the spec: prefix for agent-invocation span names
("invoke-agent style names"), literal "invoke_agent " in the span
processor. -/
def SpanPrefixInvokeAgent : String := "invoke_agent "

/-- Modelled from the spec: prefix for model-call span names, literal
"generate_content " in the span processor. -/
def SpanPrefixGenerateContent : String := "generate_content "

/-- Modelled from the spec: prefix for tool-call span names, literal
"execute_tool " in the span processor. -/
def SpanPrefixExecuteTool : String := "execute_tool "

/-- Modelled from the spec: the generic GenAI operation name emitted by the
host runtime for model calls; the translator rewrites it to "chat". -/
def OperationNameGenerateContent : String := "generate_content"

def OperationNameChat : String := "chat"

def OperationNameChain : String := "chain"

/-- Modelled from the spec: the operation name the host runtime emits for
agent invocations; the translator rewrites it to "chain". -/
def OperationNameInvokeAgent : String := "invoke_agent"

def OperationNameExecuteTool : String := "execute_tool"

/-- Modelled from the spec: the common prefix of the internal (ADK)
attribute keys; named ADKAttributePrefix in the source. -/
def ADKAttributePrefixStr : String := "gcp.vertex.agent."

def ADKAttrLLMRequestName : String := "gcp.vertex.agent.llm_request"

def ADKAttrLLMResponseName : String := "gcp.vertex.agent.llm_response"

def ADKAttrToolCallArgsName : String := "gcp.vertex.agent.tool_call_args"

def ADKAttrToolResponseName : String := "gcp.vertex.agent.tool_response"

def ADKAttrInvocationID : String := "gcp.vertex.agent.invocation_id"

def ADKAttrSessionID : String := "gcp.vertex.agent.session_id"

def AttrInputValue : String := "input.value"

def AttrOutputValue : String := "output.value"

def AttrGenAIToolInput : String := "gen_ai.tool.input"

def AttrGenAIToolOutput : String := "gen_ai.tool.output"

def AttrGenAIInvocationID : String := "gen_ai.invocation.id"

def AttrGenAISessionID : String := "gen_ai.session.id"

def AttrGenAIToolName : String := "gen_ai.tool.name"

def AttrGenAIToolDescription : String := "gen_ai.tool.description"

def AttrGenAIToolCallID : String := "gen_ai.tool.call.id"

def AttrGenAISpanKind : String := "gen_ai.span.kind"

def AttrGenAIOperationName : String := "gen_ai.operation.name"

def AttrGenAISystem : String := "gen_ai.system"

def AttrGenAIRequestModel : String := "gen_ai.request.model"

def AttrGenAIResponseModel : String := "gen_ai.response.model"

def AttrCozeloopInput : String := "cozeloop.input"

def AttrCozeloopOutput : String := "cozeloop.output"

def AttrGenAIInput : String := "gen_ai.input"

def AttrGenAIOutput : String := "gen_ai.output"

/-- Modelled from the spec: internal provider literal that is normalized to
the public provider name. -/
def ADKModelProvider : String := "gcp.vertex.agent"

def ModelProviderVolcengine : String := "volcengine"

def SpanKindWorkflow : String := "workflow"

def SpanKindLLM : String := "llm"

def SpanKindTool : String := "tool"

def FallbackAgentName : String := "<unknown_agent_name>"

def FallbackAppName : String := "<unknown_app_name>"

def FallbackUserID : String := "<unknown_user_id>"

def FallbackSessionID : String := "<unknown_session_id>"

def FallbackModelProvider : String := "<unknown_model_provider>"

/-- Modelled from the spec: sentinel for a missing invocation identifier. -/
def FallbackInvocationID : String := "<unknown_invocation_id>"

def FallbackToolName : String := "<unknown_tool_name>"

/-- Modelled from the spec: metric dimension key for the operation name. -/
def MetricAttrGenAIOperationName : String := "gen_ai.operation.name"

/-- Modelled from the spec: metric dimension key for the operation type. -/
def MetricAttrGenAIOperationType : String := "gen_ai.operation.type"

def OperationTypeTool : String := "tool"

def MetricAttrTokenType : String := "token.direction"

def TokenTypeInput : String := "input"

def TokenTypeOutput : String := "output"

/-! ## Basic data model

A span attribute is a key/value pair; the engine only ever reads the
string view of the values involved in the claims.  Trace and span
identifiers are naturals, zero being the invalid (all-zero) identifier. -/

structure Attr where
  key : String
  val : String
deriving DecidableEq, Repr

/-- OpenTelemetry trace.SpanContext restricted to the fields the engine
reads: trace identifier, span identifier, trace flags, trace state and the
remote flag. -/
structure SpanContext where
  traceID : Nat
  spanID : Nat
  traceFlags : Nat
  traceState : String
  remote : Bool
deriving DecidableEq, Repr

/-- SpanContext.IsValid: both the trace identifier and the span identifier
are non-zero. -/
def SpanContext.isValid (sc : SpanContext) : Bool :=
  decide (sc.traceID ≠ 0) && decide (sc.spanID ≠ 0)

/-! ## Correlation registry (observability/registry.go)

The two key-value tables are modelled as functions from keys to optional
entries (the sequential semantics of sync.Map / the locked Go map); the
set of live invocation spans is a boolean-valued function on span
identifiers. -/

/-- Entry of adkTraceToVeadkTraceMap: the bridged SDK trace identifier
(zero while unset) and the append-only list of owned tool-call IDs. -/
structure TraceInfos where
  veadkTraceID : Nat
  toolCallIDs : List String
deriving DecidableEq, Repr

def emptyTraceInfos : TraceInfos := { veadkTraceID := 0, toolCallIDs := [] }

def mapStore {κ α : Type} [DecidableEq κ] (m : κ → Option α) (k : κ) (v : α) :
    κ → Option α :=
  fun k2 => if k2 = k then some v else m k2

def mapDelete {κ α : Type} [DecidableEq κ] (m : κ → Option α) (k : κ) :
    κ → Option α :=
  fun k2 => if k2 = k then none else m k2

structure TraceRegistry where
  toolCallMap : String → Option SpanContext
  adkTraceToVeadkTraceMap : Nat → Option TraceInfos
  activeInvocationSpans : Nat → Bool

def emptyRegistry : TraceRegistry :=
  { toolCallMap := fun _ => none
    adkTraceToVeadkTraceMap := fun _ => none
    activeInvocationSpans := fun _ => false }

/-- TraceRegistry.RegisterInvocationSpan: tracks a live invocation span
(modelled by its span context; none models a nil span). -/
def TraceRegistry.RegisterInvocationSpan (r : TraceRegistry)
    (veadkSpan : Option SpanContext) : TraceRegistry :=
  match veadkSpan with
  | none => r
  | some sc =>
    if sc.isValid then
      { r with activeInvocationSpans :=
          fun k => if k = sc.spanID then true else r.activeInvocationSpans k }
    else r

/-- TraceRegistry.RegisterToolCallMapping: links a logical tool call ID to
its parent LLM span context.  No-op when the ID is empty or the parent
context invalid; the trace-infos bookkeeping additionally requires a valid
host trace identifier. -/
def TraceRegistry.RegisterToolCallMapping (r : TraceRegistry)
    (toolCallID : String) (adkTraceID : Nat) (veadkParentSC : SpanContext) :
    TraceRegistry :=
  if toolCallID = "" ∨ veadkParentSC.isValid = false then r
  else
    let r1 := { r with toolCallMap := mapStore r.toolCallMap toolCallID veadkParentSC }
    if adkTraceID ≠ 0 then
      let res := (r1.adkTraceToVeadkTraceMap adkTraceID).getD emptyTraceInfos
      let res2 :=
        if toolCallID ∈ res.toolCallIDs then res
        else { res with toolCallIDs := res.toolCallIDs ++ [toolCallID] }
      { r1 with adkTraceToVeadkTraceMap :=
          mapStore r1.adkTraceToVeadkTraceMap adkTraceID res2 }
    else r1

/-- TraceRegistry.RegisterTraceMapping: records (and on repetition
overwrites) the mapping from a host trace identifier to the SDK trace
identifier.  No-op when either identifier is invalid. -/
def TraceRegistry.RegisterTraceMapping (r : TraceRegistry)
    (adkTraceID veadkTraceID : Nat) : TraceRegistry :=
  if adkTraceID = 0 ∨ veadkTraceID = 0 then r
  else
    let res := (r.adkTraceToVeadkTraceMap adkTraceID).getD emptyTraceInfos
    let res2 := { res with veadkTraceID := veadkTraceID }
    { r with adkTraceToVeadkTraceMap :=
        mapStore r.adkTraceToVeadkTraceMap adkTraceID res2 }

/-- TraceRegistry.GetVeadkParentContextByToolCallID: the parent context for
a tool call ID, when present and valid. -/
def TraceRegistry.GetVeadkParentContextByToolCallID (r : TraceRegistry)
    (toolCallID : String) : Option SpanContext :=
  if toolCallID = "" then none
  else
    match r.toolCallMap toolCallID with
    | some parentSC => if parentSC.isValid then some parentSC else none
    | none => none

/-- TraceRegistry.GetVeadkTraceID: the SDK trace identifier bridged to a
host trace identifier, when set and valid. -/
def TraceRegistry.GetVeadkTraceID (r : TraceRegistry) (adkTraceID : Nat) :
    Option Nat :=
  match r.adkTraceToVeadkTraceMap adkTraceID with
  | some res => if res.veadkTraceID ≠ 0 then some res.veadkTraceID else none
  | none => none

/-- A queued cleanup request; times are naturals (monotone clock). -/
structure CleanupRequest where
  adkTraceID : Nat
  veadkSpanID : Nat
  deadline : Nat
deriving DecidableEq, Repr

/-- TraceRegistry.cleanupByTraceID: drops the live invocation span entry,
then deletes every owned tool-call binding and the trace mapping itself. -/
def TraceRegistry.cleanupByTraceID (r : TraceRegistry) (adkTraceID : Nat)
    (veadkSpanID : Nat) : TraceRegistry :=
  let r1 := { r with activeInvocationSpans :=
      fun k => if k = veadkSpanID then false else r.activeInvocationSpans k }
  match r1.adkTraceToVeadkTraceMap adkTraceID with
  | none => r1
  | some res =>
    let r2 := { r1 with toolCallMap :=
        res.toolCallIDs.foldl (fun m tcid => mapDelete m tcid) r1.toolCallMap }
    { r2 with adkTraceToVeadkTraceMap :=
        mapDelete r2.adkTraceToVeadkTraceMap adkTraceID }

/-- TraceRegistry.cleanupExpiredRequests: one tick of the cleanup loop;
requests whose deadline has strictly passed are executed in order, the
rest are kept for the next tick. -/
def TraceRegistry.cleanupExpiredRequests (r : TraceRegistry)
    (pending : List CleanupRequest) (now : Nat) :
    TraceRegistry × List CleanupRequest :=
  pending.foldl
    (fun acc req =>
      if req.deadline < now then
        (acc.1.cleanupByTraceID req.adkTraceID req.veadkSpanID, acc.2)
      else (acc.1, acc.2 ++ [req]))
    (r, [])

/-! ## Span classifiers

classifyTranslatedSpanKind is the export wrapper classifier
(observability/translator.go); classifySemanticSpanKind is the enrichment
processor classifier (veadkSpanProcessor). -/

/-- strings.HasPrefix, as a structurally recursive character-list check
(equivalent to the byte-prefix check on UTF-8 strings). -/
def strHasPrefix (pre s : String) : Bool :=
  List.isPrefixOf pre.toList s.toList

inductive TranslatedSpanKind
  | unknown
  | invocation
  | agent
  | llm
  | tool
deriving DecidableEq, Repr

inductive SemanticSpanKind
  | unknown
  | invocation
  | agent
  | llm
  | tool
deriving DecidableEq, Repr

def classifyTranslatedSpanKind (name : String) : TranslatedSpanKind :=
  if name == SpanInvocation then .invocation
  else if strHasPrefix SpanPrefixInvokeAgent name then .agent
  else if strHasPrefix SpanPrefixGenerateContent name
      || name == OperationNameGenerateContent || name == SpanCallLLM then .llm
  else if strHasPrefix SpanPrefixExecuteTool name then .tool
  else .unknown

def classifySemanticSpanKind (name : String) : SemanticSpanKind :=
  if name == SpanInvocation then .invocation
  else if strHasPrefix SpanPrefixInvokeAgent name then .agent
  else if strHasPrefix SpanPrefixGenerateContent name
      || name == SpanCallLLM then .llm
  else if strHasPrefix SpanPrefixExecuteTool name then .tool
  else .unknown

/-- The evident one-to-one correspondence between the two classifier
enumerations (both mirror the same five Go constants). -/
def semanticKindAsTranslated : SemanticSpanKind → TranslatedSpanKind
  | .unknown => .unknown
  | .invocation => .invocation
  | .agent => .agent
  | .llm => .llm
  | .tool => .tool

/-! ## Export-time attribute translation (observability/translator.go) -/

/-- Scratch record filled by scanToolSpanRawData. -/
structure ToolSpanRawData where
  toolName : String
  toolDesc : String
  toolArgs : String
  toolCallID : String
  toolResponse : String
deriving DecidableEq, Repr

def emptyToolSpanRawData : ToolSpanRawData :=
  { toolName := "", toolDesc := "", toolArgs := "", toolCallID := "", toolResponse := "" }

def updateToolSpanRawData (raw : ToolSpanRawData) (kv : Attr) : ToolSpanRawData :=
  if kv.key == AttrGenAIToolName then { raw with toolName := kv.val }
  else if kv.key == AttrGenAIToolDescription then { raw with toolDesc := kv.val }
  else if kv.key == ADKAttrToolCallArgsName then { raw with toolArgs := kv.val }
  else if kv.key == AttrGenAIToolCallID then { raw with toolCallID := kv.val }
  else if kv.key == ADKAttrToolResponseName then { raw with toolResponse := kv.val }
  else raw

/-- scanToolSpanRawData: one pass over the attributes collecting the set of
present keys and the raw tool payload fields (a later occurrence of the
same key overwrites an earlier one, as in the Go loop). -/
def scanToolSpanRawData (attrs : List Attr) : List String × ToolSpanRawData :=
  (attrs.map Attr.key, attrs.foldl updateToolSpanRawData emptyToolSpanRawData)

/-- ADKAttributeKeyMap: the fixed internal-to-standard rename table. -/
def ADKAttributeKeyMap : List (String × String) :=
  [(ADKAttrLLMRequestName, AttrInputValue),
   (ADKAttrLLMResponseName, AttrOutputValue),
   (ADKAttrToolCallArgsName, AttrGenAIToolInput),
   (ADKAttrToolResponseName, AttrGenAIToolOutput),
   (ADKAttrInvocationID, AttrGenAIInvocationID),
   (ADKAttrSessionID, AttrGenAISessionID)]

def lookupADKKey (key : String) : Option String :=
  (ADKAttributeKeyMap.find? (fun p => p.1 == key)).map Prod.snd

def isADKInternalAttribute (key : String) : Bool :=
  strHasPrefix ADKAttributePrefixStr key

def shouldSkipMappedToolAttribute (targetKey : String) : Bool :=
  targetKey == AttrGenAIToolInput || targetKey == AttrGenAIToolOutput

def hasExistingKey (existingKeys : List String) (key : String) : Bool :=
  existingKeys.contains key

def patchGenAISystem (kv : Attr) : Attr :=
  if kv.key == AttrGenAISystem && kv.val == ADKModelProvider then
    { key := AttrGenAISystem, val := ModelProviderVolcengine }
  else kv

def normalizeOperationNameBySpanKind (kind : TranslatedSpanKind) (key : String)
    (kv : Attr) : Attr :=
  if key != AttrGenAIOperationName then kv
  else if kind == TranslatedSpanKind.llm && kv.val == OperationNameGenerateContent then
    { key := AttrGenAIOperationName, val := OperationNameChat }
  else if (kind == TranslatedSpanKind.invocation || kind == TranslatedSpanKind.agent)
      && kv.val == OperationNameInvokeAgent then
    { key := AttrGenAIOperationName, val := OperationNameChain }
  else kv

/-- processAttributesByKind: scans the attributes in order, remapping
internal keys (first-write-wins against the keys already present on the
span, tool input/output never remapped) and normalizing the provider and
operation-name values. -/
def processAttributesByKind (kind : TranslatedSpanKind)
    (existingKeys : List String) : List Attr → List Attr
  | [] => []
  | kv0 :: rest =>
    let key := kv0.key
    let kv := normalizeOperationNameBySpanKind kind key kv0
    let tail := processAttributesByKind kind existingKeys rest
    if isADKInternalAttribute key then
      match lookupADKKey key with
      | some targetKey =>
        if shouldSkipMappedToolAttribute targetKey then tail
        else if hasExistingKey existingKeys targetKey then tail
        else { key := targetKey, val := kv.val } :: tail
      | none => tail
    else patchGenAISystem kv :: tail

/-- Abstraction of the encoding/json calls made by the tool payload
reconstruction: parsing a string into a JSON object and re-serializing
the two wrapper objects built by the translator. -/
structure JSONCodec (J : Type) where
  parseObject : String → Option J
  marshalToolInput : String → String → J → Option String
  marshalToolOutput : String → String → J → Option String

/-- reconstructToolInput: parse the raw arguments; on success serialize the
name/description/parameters wrapper and emit it under four aliases. -/
def reconstructToolInput {J : Type} (codec : JSONCodec J)
    (toolName toolDesc toolArgs : String) : Option (List Attr) :=
  match codec.parseObject toolArgs with
  | some paramsMap =>
    match codec.marshalToolInput toolName toolDesc paramsMap with
    | some val =>
      some [{ key := AttrGenAIToolInput, val := val },
            { key := AttrCozeloopInput, val := val },
            { key := AttrGenAIInput, val := val },
            { key := AttrInputValue, val := val }]
    | none => none
  | none => none

/-- reconstructToolOutput: parse the raw response; on success serialize the
id/name/response wrapper and emit it under four aliases. -/
def reconstructToolOutput {J : Type} (codec : JSONCodec J)
    (toolName toolCallID toolResponse : String) : Option (List Attr) :=
  match codec.parseObject toolResponse with
  | some responseMap =>
    match codec.marshalToolOutput toolCallID toolName responseMap with
    | some val =>
      some [{ key := AttrGenAIToolOutput, val := val },
            { key := AttrCozeloopOutput, val := val },
            { key := AttrGenAIOutput, val := val },
            { key := AttrOutputValue, val := val }]
    | none => none
  | none => none

def appendToolReconstructedAttributes {J : Type} (codec : JSONCodec J)
    (kind : TranslatedSpanKind) (attrs : List Attr) (raw : ToolSpanRawData) :
    List Attr :=
  if kind ≠ TranslatedSpanKind.tool then attrs
  else
    let attrs1 :=
      if raw.toolArgs != "" && raw.toolName != "" then
        match reconstructToolInput codec raw.toolName raw.toolDesc raw.toolArgs with
        | some inputAttrs => attrs ++ inputAttrs
        | none => attrs
      else attrs
    if raw.toolResponse != "" && raw.toolCallID != "" then
      match reconstructToolOutput codec raw.toolName raw.toolCallID raw.toolResponse with
      | some outputAttrs => attrs1 ++ outputAttrs
      | none => attrs1
    else attrs1

def appendToolSpanKindAttribute (attrs : List Attr) (raw : ToolSpanRawData) :
    List Attr :=
  if raw.toolName != "" || raw.toolCallID != "" then
    attrs ++ [{ key := AttrGenAISpanKind, val := SpanKindTool }]
  else attrs

/-- getStringAttrFromList: first non-empty value stored under the key,
else the fallback. -/
def getStringAttrFromList (attrs : List Attr) (key fallback : String) : String :=
  match attrs with
  | [] => fallback
  | kv :: rest =>
    if kv.key == key && kv.val != "" then kv.val
    else getStringAttrFromList rest key fallback

/-- The span data the translation reads: name, attributes, start/end times
(nanoseconds) and the reported span context. -/
structure SpanData where
  name : String
  attrs : List Attr
  startTime : Int
  endTime : Int
  spanContext : SpanContext
deriving DecidableEq, Repr

/-- The first three stages of translatedSpan.Attributes: remapping, tool
payload reconstruction and the tool span-kind marker. -/
def translatedAttributesBeforeModelPatch {J : Type} (codec : JSONCodec J)
    (s : SpanData) : List Attr :=
  let kind := classifyTranslatedSpanKind s.name
  let scanned := scanToolSpanRawData s.attrs
  let newAttrs1 := processAttributesByKind kind scanned.1 s.attrs
  let newAttrs2 := appendToolReconstructedAttributes codec kind newAttrs1 scanned.2
  appendToolSpanKindAttribute newAttrs2 scanned.2

/-- translatedSpan.Attributes: the three rewriting stages followed by the
response-model backfill on model-call spans. -/
def translatedSpanAttributes {J : Type} (codec : JSONCodec J) (s : SpanData) :
    List Attr :=
  let kind := classifyTranslatedSpanKind s.name
  let newAttrs := translatedAttributesBeforeModelPatch codec s
  if kind == TranslatedSpanKind.llm then
    let reqModel := getStringAttrFromList newAttrs AttrGenAIRequestModel ""
    let respModel := getStringAttrFromList newAttrs AttrGenAIResponseModel ""
    if reqModel != "" && respModel == "" then
      newAttrs ++ [{ key := AttrGenAIResponseModel, val := reqModel }]
    else newAttrs
  else newAttrs

/-! ## Export-time context rewriting (observability/translator.go) -/

def findToolCallID : List Attr → String
  | [] => ""
  | kv :: rest => if kv.key == AttrGenAIToolCallID then kv.val else findToolCallID rest

def newSpanContextWithTraceID (sc : SpanContext) (traceID : Nat) : SpanContext :=
  { traceID := traceID
    spanID := sc.spanID
    traceFlags := sc.traceFlags
    traceState := sc.traceState
    remote := sc.remote }

def tryRemapSpanContextByToolCallID (r : TraceRegistry) (sc : SpanContext)
    (toolCallID : String) : Option SpanContext :=
  match r.GetVeadkParentContextByToolCallID toolCallID with
  | some veadkParentSC => some (newSpanContextWithTraceID sc veadkParentSC.traceID)
  | none => none

def tryRemapSpanContextByTraceID (r : TraceRegistry) (sc : SpanContext) :
    Option SpanContext :=
  match r.GetVeadkTraceID sc.traceID with
  | some veadkTraceID => some (newSpanContextWithTraceID sc veadkTraceID)
  | none => none

/-- translatedSpan.SpanContext: tool-call-identifier lookup first, host
trace identifier lookup second, otherwise the original context. -/
def translatedSpanContext (r : TraceRegistry) (s : SpanData) : SpanContext :=
  let sc := s.spanContext
  let toolCallID := findToolCallID s.attrs
  match tryRemapSpanContextByToolCallID r sc toolCallID with
  | some remapped => remapped
  | none =>
    match tryRemapSpanContextByTraceID r sc with
    | some remapped => remapped
    | none => sc

/-- The transformed view of one span as produced by the export wrapper
(the fields relevant to the claims). -/
structure TranslatedView where
  attributes : List Attr
  spanContext : SpanContext
deriving DecidableEq, Repr

def translateSpan {J : Type} (codec : JSONCodec J) (r : TraceRegistry)
    (s : SpanData) : TranslatedView :=
  { attributes := translatedSpanAttributes codec s
    spanContext := translatedSpanContext r s }

/-- VeADKTranslatedExporter.ExportSpans wraps every span of the batch in
its translated view (no span is dropped). -/
def exportTranslatedBatch {J : Type} (codec : JSONCodec J) (r : TraceRegistry)
    (spans : List SpanData) : List TranslatedView :=
  spans.map (translateSpan codec r)

/-! ## Span-start enrichment processor (veadkSpanProcessor)

setCommonAttributes resolves the five ambient identifiers from the
invocation-scoped context (checked first) and the callback-scoped context
(checked second), starting from the fixed sentinels; each context assigns
a field only when it supplies a non-empty value. -/

/-- The session object reachable from the invocation context (may be nil). -/
structure SessionInfo where
  id : String
  userID : String
  appName : String
deriving DecidableEq, Repr

/-- agent.InvocationContext as read by setCommonAttributes: Session() may
be nil, Agent() may be nil (agentName is its name when present). -/
structure InvocationContextData where
  session : Option SessionInfo
  invocationID : String
  agentName : Option String
deriving DecidableEq, Repr

/-- agent.CallbackContext as read by setCommonAttributes. -/
structure CallbackContextData where
  sessionID : String
  userID : String
  appName : String
  invocationID : String
  agentName : String
deriving DecidableEq, Repr

/-- The ambient context value: it may implement the invocation-context
interface, the callback-context interface, both, or neither. -/
structure AmbientContext where
  invocation : Option InvocationContextData
  callback : Option CallbackContextData
deriving DecidableEq, Repr

structure CommonIds where
  sessionID : String
  userID : String
  appName : String
  invocationID : String
  agentName : String
deriving DecidableEq, Repr

def fallbackCommonIds : CommonIds :=
  { sessionID := FallbackSessionID
    userID := FallbackUserID
    appName := FallbackAppName
    invocationID := FallbackInvocationID
    agentName := FallbackAgentName }

def applyInvocationContext (ids : CommonIds) (ivc : InvocationContextData) :
    CommonIds :=
  let a :=
    match ivc.session with
    | none => ids
    | some s =>
      let b := if s.id != "" then { ids with sessionID := s.id } else ids
      let c := if s.userID != "" then { b with userID := s.userID } else b
      if s.appName != "" then { c with appName := s.appName } else c
  let d := if ivc.invocationID != "" then { a with invocationID := ivc.invocationID } else a
  match ivc.agentName with
  | some an => if an != "" then { d with agentName := an } else d
  | none => d

def applyCallbackContext (ids : CommonIds) (cctx : CallbackContextData) :
    CommonIds :=
  let a := if cctx.sessionID != "" then { ids with sessionID := cctx.sessionID } else ids
  let b := if cctx.userID != "" then { a with userID := cctx.userID } else a
  let c := if cctx.appName != "" then { b with appName := cctx.appName } else b
  let d := if cctx.invocationID != "" then { c with invocationID := cctx.invocationID } else c
  if cctx.agentName != "" then { d with agentName := cctx.agentName } else d

/-- setCommonAttributes, identifier-resolution part: sentinels, then the
invocation context when the ambient context implements it, then the
callback context when the ambient context implements it. -/
def setCommonAttributesResolve (ctx : AmbientContext) : CommonIds :=
  let ids0 := fallbackCommonIds
  let ids1 :=
    match ctx.invocation with
    | some ivc => applyInvocationContext ids0 ivc
    | none => ids0
  match ctx.callback with
  | some cctx => applyCallbackContext ids1 cctx
  | none => ids1

/-! ## Tool-span metric emission on span end (veadkSpanProcessor.OnEnd)

Durations are kept in nanoseconds; the Go code converts to seconds (a
sign-preserving scaling) before comparing with zero and recording, so the
non-positivity guard is faithfully represented on the nanosecond value. -/

inductive MetricPoint
  | operationDuration (durationNs : Int) (attrs : List Attr)
  | apmplusSpanLatency (durationNs : Int) (attrs : List Attr)
  | apmplusToolTokenUsage (tokens : Int) (attrs : List Attr)
deriving DecidableEq, Repr

/-- strings.TrimPrefix: drop the prefix when present, else return the
string unchanged. -/
def trimPrefixStr (pre s : String) : String :=
  if strHasPrefix pre s then String.mk (s.toList.drop pre.toList.length) else s

/-- getStringAttribute (veadkSpanProcessor helper): identical scan to
getStringAttrFromList. -/
def getStringAttribute (attrs : List Attr) (key fallback : String) : String :=
  match attrs with
  | [] => fallback
  | kv :: rest =>
    if kv.key == key && kv.val != "" then kv.val
    else getStringAttribute rest key fallback

/-- recordToolTokenUsageFromSpanAttributes: character-count/4 token
estimates, each recorded only when positive. -/
def recordToolTokenUsageFromSpanAttributes (s : SpanData)
    (metricAttrs : List Attr) : List MetricPoint :=
  let inputRaw := getStringAttribute s.attrs ADKAttrToolCallArgsName ""
  let outputRaw := getStringAttribute s.attrs ADKAttrToolResponseName ""
  let inputTokens : Int := (inputRaw.length : Int) / 4
  let outputTokens : Int := (outputRaw.length : Int) / 4
  (if inputTokens > 0 then
    [MetricPoint.apmplusToolTokenUsage inputTokens
      (metricAttrs ++ [{ key := MetricAttrTokenType, val := TokenTypeInput }])]
  else []) ++
  (if outputTokens > 0 then
    [MetricPoint.apmplusToolTokenUsage outputTokens
      (metricAttrs ++ [{ key := MetricAttrTokenType, val := TokenTypeOutput }])]
  else [])

/-- veadkSpanProcessor.OnEnd: emits metrics only for tool-call spans with a
strictly positive wall-clock duration. -/
def veadkOnEnd (s : SpanData) : List MetricPoint :=
  if classifySemanticSpanKind s.name ≠ SemanticSpanKind.tool then []
  else
    let duration := s.endTime - s.startTime
    if duration ≤ 0 then []
    else
      let toolName0 := trimPrefixStr SpanPrefixExecuteTool s.name
      let toolName := if toolName0 == "" then FallbackToolName else toolName0
      let modelProvider := getStringAttribute s.attrs AttrGenAISystem FallbackModelProvider
      let metricAttrs : List Attr :=
        [{ key := MetricAttrGenAIOperationName, val := toolName },
         { key := MetricAttrGenAIOperationType, val := OperationTypeTool },
         { key := AttrGenAISystem, val := modelProvider }]
      [MetricPoint.operationDuration duration metricAttrs,
       MetricPoint.apmplusSpanLatency duration metricAttrs] ++
      recordToolTokenUsageFromSpanAttributes s metricAttrs

/-! ## Shared concrete values for witnesses and counterexamples -/

def trivialCodec : JSONCodec Unit :=
  { parseObject := fun _ => none
    marshalToolInput := fun _ _ _ => none
    marshalToolOutput := fun _ _ _ => none }

def scValid1 : SpanContext :=
  { traceID := 11, spanID := 22, traceFlags := 1, traceState := "", remote := false }

def exPlainSpan : SpanData :=
  { name := "custom_span"
    attrs := []
    startTime := 0
    endTime := 1
    spanContext := { traceID := 7, spanID := 8, traceFlags := 1, traceState := "", remote := false } }

/-! ## C1: export-time span-context rewriting -/

/-- C1: for every exported span, the translated span context is obtained by
first trying the tool-call-identifier lookup over the attributes, then the
host-trace-identifier lookup; a successful lookup substitutes the resolved
trace identifier while preserving the span identifier, trace flags, trace
state and remote flag; if both lookups fail, the original context is
returned unchanged. -/
theorem spanContext_translation_characterization (r : TraceRegistry) (s : SpanData) :
    (translatedSpanContext r s =
      match r.GetVeadkParentContextByToolCallID (findToolCallID s.attrs) with
      | some veadkParentSC =>
        newSpanContextWithTraceID s.spanContext veadkParentSC.traceID
      | none =>
        match r.GetVeadkTraceID s.spanContext.traceID with
        | some veadkTraceID => newSpanContextWithTraceID s.spanContext veadkTraceID
        | none => s.spanContext)
    ∧ (translatedSpanContext r s).spanID = s.spanContext.spanID
    ∧ (translatedSpanContext r s).traceFlags = s.spanContext.traceFlags
    ∧ (translatedSpanContext r s).traceState = s.spanContext.traceState
    ∧ (translatedSpanContext r s).remote = s.spanContext.remote
    ∧ (∀ veadkParentSC,
        r.GetVeadkParentContextByToolCallID (findToolCallID s.attrs) = some veadkParentSC →
        (translatedSpanContext r s).traceID = veadkParentSC.traceID)
    ∧ (r.GetVeadkParentContextByToolCallID (findToolCallID s.attrs) = none →
        ∀ veadkTraceID, r.GetVeadkTraceID s.spanContext.traceID = some veadkTraceID →
        (translatedSpanContext r s).traceID = veadkTraceID)
    ∧ (r.GetVeadkParentContextByToolCallID (findToolCallID s.attrs) = none →
        r.GetVeadkTraceID s.spanContext.traceID = none →
        translatedSpanContext r s = s.spanContext) := by
  unfold translatedSpanContext tryRemapSpanContextByToolCallID tryRemapSpanContextByTraceID
  rcases h1 : r.GetVeadkParentContextByToolCallID (findToolCallID s.attrs) with _ | p
  · rcases h2 : r.GetVeadkTraceID s.spanContext.traceID with _ | t
    · simp [h1, h2]
    · simp [h1, h2, newSpanContextWithTraceID]
  · simp [h1, newSpanContextWithTraceID]

/-- Witness for C1 at a concrete span against the empty registry: both
lookups miss and the context passes through unchanged. -/
theorem spanContext_translation_characterization_witness :
    emptyRegistry.GetVeadkParentContextByToolCallID (findToolCallID exPlainSpan.attrs) = none
    ∧ emptyRegistry.GetVeadkTraceID exPlainSpan.spanContext.traceID = none
    ∧ translatedSpanContext emptyRegistry exPlainSpan = exPlainSpan.spanContext :=
  ⟨by decide, by decide,
    (spanContext_translation_characterization emptyRegistry exPlainSpan).2.2.2.2.2.2.2
      (by decide) (by decide)⟩

/-! ## C3: trace-mapping registration overwrites -/

/-- C3 counterexample: registering host trace 1 first with SDK trace 2 and
then with SDK trace 3 leaves 3 stored, not the originally stored 2 — the
stored sdkTraceID is overwritten by the later registration. -/
theorem registerTraceMapping_overwrite_counterexample :
    ((emptyRegistry.RegisterTraceMapping 1 2).RegisterTraceMapping 1 3).GetVeadkTraceID 1 = some 3
    ∧ ¬ ((emptyRegistry.RegisterTraceMapping 1 2).RegisterTraceMapping 1 3).GetVeadkTraceID 1 = some 2 := by
  decide

/-- C3 amended: registerTraceMapping is last-write-wins — after any
registration with valid identifiers, the stored SDK trace identifier is
the one of that (most recent) registration, irrespective of what was
stored before. -/
theorem registerTraceMapping_last_write_wins (r : TraceRegistry)
    (adkTraceID veadkTraceID : Nat)
    (h1 : adkTraceID ≠ 0) (h2 : veadkTraceID ≠ 0) :
    (r.RegisterTraceMapping adkTraceID veadkTraceID).GetVeadkTraceID adkTraceID
      = some veadkTraceID := by
  unfold TraceRegistry.RegisterTraceMapping TraceRegistry.GetVeadkTraceID
  simp [h1, h2, mapStore]

/-- Witness for the amended C3 at concrete identifiers, exercising the
overwriting case. -/
theorem registerTraceMapping_last_write_wins_witness :
    (1 : Nat) ≠ 0 ∧ (3 : Nat) ≠ 0
    ∧ ((emptyRegistry.RegisterTraceMapping 1 2).RegisterTraceMapping 1 3).GetVeadkTraceID 1 = some 3 :=
  ⟨by decide, by decide,
    registerTraceMapping_last_write_wins (emptyRegistry.RegisterTraceMapping 1 2) 1 3
      (by decide) (by decide)⟩

/-! ## C4: agreement of the two span classifiers -/

/-- C4 counterexample: the span name equal to the generic model operation
name is classified as a model-call span by the export wrapper but as
unknown by the enrichment processor. -/
theorem classifier_divergence_counterexample :
    classifyTranslatedSpanKind OperationNameGenerateContent = TranslatedSpanKind.llm
    ∧ classifySemanticSpanKind OperationNameGenerateContent = SemanticSpanKind.unknown
    ∧ semanticKindAsTranslated (classifySemanticSpanKind OperationNameGenerateContent)
        ≠ classifyTranslatedSpanKind OperationNameGenerateContent := by
  decide

/-- C4 amended: the two classifiers agree on every span name except the
exact string "generate_content", which only the export wrapper treats as a
model-call span. -/
theorem classifiers_agree_off_generate_content (name : String)
    (h : name ≠ OperationNameGenerateContent) :
    semanticKindAsTranslated (classifySemanticSpanKind name)
      = classifyTranslatedSpanKind name := by
  have hb : (name == OperationNameGenerateContent) = false := by
    simp [h]
  unfold classifyTranslatedSpanKind classifySemanticSpanKind
  rw [hb]
  simp only [Bool.or_false]
  split_ifs <;> rfl

/-- Witness for the amended C4 at a concrete tool span name. -/
theorem classifiers_agree_off_generate_content_witness :
    "execute_tool search" ≠ OperationNameGenerateContent
    ∧ semanticKindAsTranslated (classifySemanticSpanKind "execute_tool search")
        = classifyTranslatedSpanKind "execute_tool search" :=
  ⟨by decide, classifiers_agree_off_generate_content "execute_tool search" (by decide)⟩

/-! ## C6: register operations on invalid identifiers -/

/-- C6 counterexample: registerToolCallMapping with a valid tool-call
identifier and parent context but the invalid (zero) host trace identifier
does create the tool-call binding — the subsequent lookup keyed by that
tool-call identifier succeeds instead of reporting not-found. -/
theorem registerToolCall_invalid_trace_counterexample :
    (emptyRegistry.RegisterToolCallMapping "call-1" 0 scValid1).GetVeadkParentContextByToolCallID "call-1"
      = some scValid1 := by
  decide

/-- C6 amended: each register operation is a no-op exactly on its own guard
(empty/invalid tool-call key or parent for registerToolCallMapping, either
identifier invalid for registerTraceMapping, nil or invalid span for
registerInvocationSpan); registerToolCallMapping with a valid tool-call
identifier and parent but invalid host trace identifier skips only the
trace-infos bookkeeping and still creates the binding. -/
theorem register_invalid_inputs_behavior (r : TraceRegistry) :
    (∀ adkTraceID veadkTraceID : Nat, adkTraceID = 0 ∨ veadkTraceID = 0 →
      r.RegisterTraceMapping adkTraceID veadkTraceID = r)
    ∧ r.RegisterInvocationSpan none = r
    ∧ (∀ sc : SpanContext, sc.isValid = false → r.RegisterInvocationSpan (some sc) = r)
    ∧ (∀ (toolCallID : String) (adkTraceID : Nat) (sc : SpanContext),
        toolCallID = "" ∨ sc.isValid = false →
        r.RegisterToolCallMapping toolCallID adkTraceID sc = r)
    ∧ (∀ (toolCallID : String) (sc : SpanContext),
        toolCallID ≠ "" → sc.isValid = true →
        (r.RegisterToolCallMapping toolCallID 0 sc).adkTraceToVeadkTraceMap
            = r.adkTraceToVeadkTraceMap
        ∧ (r.RegisterToolCallMapping toolCallID 0 sc).GetVeadkParentContextByToolCallID toolCallID
            = some sc) := by
  refine ⟨?_, rfl, ?_, ?_, ?_⟩
  · intro adkTraceID veadkTraceID h
    unfold TraceRegistry.RegisterTraceMapping
    rw [if_pos h]
  · intro sc h
    unfold TraceRegistry.RegisterInvocationSpan
    simp [h]
  · intro toolCallID adkTraceID sc h
    unfold TraceRegistry.RegisterToolCallMapping
    rw [if_pos h]
  · intro toolCallID sc h1 h2
    unfold TraceRegistry.RegisterToolCallMapping TraceRegistry.GetVeadkParentContextByToolCallID
    simp [h1, h2, mapStore]

/-- Witness for the amended C6: concrete no-op registrations and a concrete
binding created despite the invalid host trace identifier. -/
theorem register_invalid_inputs_behavior_witness :
    emptyRegistry.RegisterTraceMapping 0 5 = emptyRegistry
    ∧ (emptyRegistry.RegisterToolCallMapping "call-1" 0 scValid1).GetVeadkParentContextByToolCallID "call-1"
        = some scValid1 :=
  ⟨(register_invalid_inputs_behavior emptyRegistry).1 0 5 (Or.inl rfl),
   ((register_invalid_inputs_behavior emptyRegistry).2.2.2.2 "call-1" scValid1
      (by decide) (by decide)).2⟩

/-! ## C2: tool-call binding lifecycle -/

theorem mapDelete_apply {κ α : Type} [DecidableEq κ] (m : κ → Option α) (k k2 : κ) :
    mapDelete m k k2 = if k2 = k then none else m k2 := rfl

theorem foldl_mapDelete_eq_none {κ α : Type} [DecidableEq κ] :
    ∀ (l : List κ) (m : κ → Option α) (k : κ), m k = none ∨ k ∈ l →
      (l.foldl (fun m2 k2 => mapDelete m2 k2) m) k = none := by
  intro l
  induction l with
  | nil =>
    intro m k h
    rcases h with h | h
    · exact h
    · simp at h
  | cons hd tl ih =>
    intro m k h
    apply ih
    by_cases hk : k = hd
    · left
      simp [mapDelete_apply, hk]
    · rcases h with h | h
      · left
        simp [mapDelete_apply, hk, h]
      · rcases List.mem_cons.mp h with h2 | h2
        · exact absurd h2 hk
        · right
          exact h2

theorem registerToolCall_toolCallMap (r : TraceRegistry) (tcid : String)
    (trid : Nat) (sc : SpanContext) (h1 : tcid ≠ "") (h2 : sc.isValid = true) :
    (r.RegisterToolCallMapping tcid trid sc).toolCallMap
      = mapStore r.toolCallMap tcid sc := by
  unfold TraceRegistry.RegisterToolCallMapping
  rw [if_neg (by simp [h1, h2])]
  by_cases h3 : trid ≠ 0 <;> simp [h3]

theorem registerToolCall_adkMap (r : TraceRegistry) (tcid : String)
    (trid : Nat) (sc : SpanContext) (h1 : tcid ≠ "") (h2 : sc.isValid = true)
    (h3 : trid ≠ 0) :
    (r.RegisterToolCallMapping tcid trid sc).adkTraceToVeadkTraceMap trid
      = some (if tcid ∈ ((r.adkTraceToVeadkTraceMap trid).getD emptyTraceInfos).toolCallIDs
              then (r.adkTraceToVeadkTraceMap trid).getD emptyTraceInfos
              else { (r.adkTraceToVeadkTraceMap trid).getD emptyTraceInfos with
                     toolCallIDs :=
                       ((r.adkTraceToVeadkTraceMap trid).getD emptyTraceInfos).toolCallIDs
                         ++ [tcid] }) := by
  unfold TraceRegistry.RegisterToolCallMapping
  rw [if_neg (by simp [h1, h2])]
  rw [if_pos h3]
  simp [mapStore]

theorem registerToolCall_traceInfos_mem (r : TraceRegistry) (tcid : String)
    (trid : Nat) (sc : SpanContext) (h1 : tcid ≠ "") (h2 : sc.isValid = true)
    (h3 : trid ≠ 0) :
    ∃ res2, (r.RegisterToolCallMapping tcid trid sc).adkTraceToVeadkTraceMap trid
        = some res2 ∧ tcid ∈ res2.toolCallIDs := by
  refine ⟨_, registerToolCall_adkMap r tcid trid sc h1 h2 h3, ?_⟩
  by_cases hmem : tcid ∈ ((r.adkTraceToVeadkTraceMap trid).getD emptyTraceInfos).toolCallIDs
  · simp [hmem]
  · simp [hmem]

theorem registerToolCall_lookup_self (r : TraceRegistry) (tcid : String)
    (trid : Nat) (sc : SpanContext) (h1 : tcid ≠ "") (h2 : sc.isValid = true) :
    (r.RegisterToolCallMapping tcid trid sc).GetVeadkParentContextByToolCallID tcid
      = some sc := by
  unfold TraceRegistry.GetVeadkParentContextByToolCallID
  rw [registerToolCall_toolCallMap r tcid trid sc h1 h2]
  simp [mapStore, h1, h2]

theorem registerToolCall_toolCallMap_apply (r : TraceRegistry)
    (tcid2 tcid : String) (trid2 : Nat) (sc2 : SpanContext) (hne : tcid ≠ tcid2) :
    (r.RegisterToolCallMapping tcid2 trid2 sc2).toolCallMap tcid
      = r.toolCallMap tcid := by
  unfold TraceRegistry.RegisterToolCallMapping
  split
  · rfl
  · by_cases h3 : trid2 ≠ 0 <;> simp [h3, mapStore, hne]

theorem registerToolCall_frame (r : TraceRegistry) (tcid tcid2 : String)
    (trid2 : Nat) (sc2 : SpanContext) (hne : tcid ≠ tcid2) :
    (r.RegisterToolCallMapping tcid2 trid2 sc2).GetVeadkParentContextByToolCallID tcid
      = r.GetVeadkParentContextByToolCallID tcid := by
  unfold TraceRegistry.GetVeadkParentContextByToolCallID
  rw [registerToolCall_toolCallMap_apply r tcid2 tcid trid2 sc2 hne]

/-- C2: a registration with a non-empty tool-call identifier and valid
parent context makes the lookup return exactly that context; a second
registration for the same identifier overwrites it (last-write-wins);
registrations for other identifiers do not disturb it; and cleanup of the
owning host trace deletes the binding, after which the lookup reports
not-found. -/
theorem toolCallMapping_register_lookup_lifecycle (r : TraceRegistry)
    (tcid : String) (trid : Nat) (sc : SpanContext) (vspid : Nat)
    (h1 : tcid ≠ "") (h2 : sc.isValid = true) :
    (r.RegisterToolCallMapping tcid trid sc).GetVeadkParentContextByToolCallID tcid
        = some sc
    ∧ (∀ (trid2 : Nat) (sc2 : SpanContext), sc2.isValid = true →
        ((r.RegisterToolCallMapping tcid trid sc).RegisterToolCallMapping tcid trid2 sc2).GetVeadkParentContextByToolCallID tcid
          = some sc2)
    ∧ (∀ (tcid2 : String) (trid2 : Nat) (sc2 : SpanContext), tcid ≠ tcid2 →
        ((r.RegisterToolCallMapping tcid trid sc).RegisterToolCallMapping tcid2 trid2 sc2).GetVeadkParentContextByToolCallID tcid
          = some sc)
    ∧ (trid ≠ 0 →
        ((r.RegisterToolCallMapping tcid trid sc).cleanupByTraceID trid vspid).GetVeadkParentContextByToolCallID tcid
          = none) := by
  refine ⟨registerToolCall_lookup_self r tcid trid sc h1 h2, ?_, ?_, ?_⟩
  · intro trid2 sc2 hv2
    exact registerToolCall_lookup_self _ tcid trid2 sc2 h1 hv2
  · intro tcid2 trid2 sc2 hne
    rw [registerToolCall_frame _ tcid tcid2 trid2 sc2 hne]
    exact registerToolCall_lookup_self r tcid trid sc h1 h2
  · intro h3
    obtain ⟨res2, hres, hmem⟩ := registerToolCall_traceInfos_mem r tcid trid sc h1 h2 h3
    have hnone := foldl_mapDelete_eq_none res2.toolCallIDs
      (r.RegisterToolCallMapping tcid trid sc).toolCallMap tcid (Or.inr hmem)
    unfold TraceRegistry.cleanupByTraceID
    simp only []
    rw [hres]
    unfold TraceRegistry.GetVeadkParentContextByToolCallID
    rw [if_neg h1]
    simp [hnone]

/-- Witness for C2 at concrete inputs: register, look up, clean up. -/
theorem toolCallMapping_register_lookup_lifecycle_witness :
    "call-2" ≠ "" ∧ scValid1.isValid = true
    ∧ (emptyRegistry.RegisterToolCallMapping "call-2" 1 scValid1).GetVeadkParentContextByToolCallID "call-2"
        = some scValid1
    ∧ ((emptyRegistry.RegisterToolCallMapping "call-2" 1 scValid1).cleanupByTraceID 1 9).GetVeadkParentContextByToolCallID "call-2"
        = none :=
  ⟨by decide, by decide,
   (toolCallMapping_register_lookup_lifecycle emptyRegistry "call-2" 1 scValid1 9
      (by decide) (by decide)).1,
   (toolCallMapping_register_lookup_lifecycle emptyRegistry "call-2" 1 scValid1 9
      (by decide) (by decide)).2.2.2 (by decide)⟩

/-! ## C7: cleanup tick semantics -/

theorem cleanupExpired_foldl_spec (now : Nat) :
    ∀ (pending : List CleanupRequest) (r : TraceRegistry) (kept : List CleanupRequest),
      pending.foldl
        (fun acc req =>
          if req.deadline < now then
            (acc.1.cleanupByTraceID req.adkTraceID req.veadkSpanID, acc.2)
          else (acc.1, acc.2 ++ [req]))
        (r, kept)
      = ((pending.filter (fun req => decide (req.deadline < now))).foldl
           (fun acc req => acc.cleanupByTraceID req.adkTraceID req.veadkSpanID) r,
         kept ++ pending.filter (fun req => ! decide (req.deadline < now))) := by
  intro pending
  induction pending with
  | nil =>
    intro r kept
    simp
  | cons hd tl ih =>
    intro r kept
    by_cases h : hd.deadline < now
    · simp only [List.foldl_cons, List.filter_cons, h, if_pos h]
      rw [ih]
      simp
    · simp only [List.foldl_cons, List.filter_cons, h, if_neg h]
      rw [ih]
      simp

/-- C7: a cleanup tick retains exactly the requests whose deadline has not
strictly passed (unchanged, in order), executes exactly the expired ones in
order, and executing one cleanup request deletes the trace-mapping entry,
every tool-call binding in its owned list, and the active-invocation-span
entry; a request whose deadline has not passed leaves the registry
untouched. -/
theorem cleanup_tick_partition_and_effect (r : TraceRegistry)
    (pending : List CleanupRequest) (now : Nat) :
    (r.cleanupExpiredRequests pending now).2
        = pending.filter (fun req => ! decide (req.deadline < now))
    ∧ (r.cleanupExpiredRequests pending now).1
        = (pending.filter (fun req => decide (req.deadline < now))).foldl
            (fun acc req => acc.cleanupByTraceID req.adkTraceID req.veadkSpanID) r
    ∧ (∀ (adkTraceID veadkSpanID : Nat) (info : TraceInfos),
        r.adkTraceToVeadkTraceMap adkTraceID = some info →
          (r.cleanupByTraceID adkTraceID veadkSpanID).adkTraceToVeadkTraceMap adkTraceID = none
          ∧ (∀ tcid ∈ info.toolCallIDs,
              (r.cleanupByTraceID adkTraceID veadkSpanID).toolCallMap tcid = none)
          ∧ (r.cleanupByTraceID adkTraceID veadkSpanID).activeInvocationSpans veadkSpanID = false)
    ∧ (∀ req : CleanupRequest, ¬ req.deadline < now →
        r.cleanupExpiredRequests [req] now = (r, [req])) := by
  refine ⟨?_, ?_, ?_, ?_⟩
  · unfold TraceRegistry.cleanupExpiredRequests
    rw [cleanupExpired_foldl_spec now pending r []]
    simp
  · unfold TraceRegistry.cleanupExpiredRequests
    rw [cleanupExpired_foldl_spec now pending r []]
  · intro adkTraceID veadkSpanID info hinfo
    unfold TraceRegistry.cleanupByTraceID
    simp only []
    rw [hinfo]
    refine ⟨?_, ?_, ?_⟩
    · simp [mapDelete_apply]
    · intro tcid hmem
      exact foldl_mapDelete_eq_none info.toolCallIDs _ tcid (Or.inr hmem)
    · simp
  · intro req h
    unfold TraceRegistry.cleanupExpiredRequests
    simp [h]

/-- Witness for C7: one expired and one pending request against a concrete
registry holding one trace mapping that owns one tool-call binding. -/
def regWithOneTrace : TraceRegistry :=
  { toolCallMap := fun k => if k = "call-7" then some scValid1 else none
    adkTraceToVeadkTraceMap :=
      fun h => if h = 1 then some { veadkTraceID := 5, toolCallIDs := ["call-7"] } else none
    activeInvocationSpans := fun _ => true }

theorem cleanup_tick_partition_and_effect_witness :
    regWithOneTrace.adkTraceToVeadkTraceMap 1
        = some { veadkTraceID := 5, toolCallIDs := ["call-7"] }
    ∧ (regWithOneTrace.cleanupByTraceID 1 9).adkTraceToVeadkTraceMap 1 = none
    ∧ (regWithOneTrace.cleanupByTraceID 1 9).toolCallMap "call-7" = none
    ∧ (regWithOneTrace.cleanupByTraceID 1 9).activeInvocationSpans 9 = false
    ∧ ¬ (20 : Nat) < 10
    ∧ regWithOneTrace.cleanupExpiredRequests
        [{ adkTraceID := 1, veadkSpanID := 9, deadline := 20 }] 10
        = (regWithOneTrace, [{ adkTraceID := 1, veadkSpanID := 9, deadline := 20 }]) :=
  by
  have h := cleanup_tick_partition_and_effect regWithOneTrace
    [{ adkTraceID := 1, veadkSpanID := 9, deadline := 20 }] 10
  have h3 := h.2.2.1 1 9 { veadkTraceID := 5, toolCallIDs := ["call-7"] } (by decide)
  have h4 := h.2.2.2 { adkTraceID := 1, veadkSpanID := 9, deadline := 20 } (by decide)
  exact ⟨by decide, h3.1, h3.2.1 "call-7" (by decide), h3.2.2, by decide, h4⟩

/-! ## C8: no metrics on non-positive tool span duration -/

/-- C8: on end of a tool-call span whose wall-clock duration is zero or
negative, the processor emits no duration metric and no token-usage
metric, while the export wrapper still exports the span with its
translated attributes. -/
theorem toolSpan_nonpositive_duration_no_metrics {J : Type} (codec : JSONCodec J)
    (r : TraceRegistry) (s : SpanData)
    (hkind : classifySemanticSpanKind s.name = SemanticSpanKind.tool)
    (hdur : s.endTime - s.startTime ≤ 0) :
    veadkOnEnd s = []
    ∧ exportTranslatedBatch codec r [s] = [translateSpan codec r s]
    ∧ (translateSpan codec r s).attributes = translatedSpanAttributes codec s := by
  refine ⟨?_, rfl, rfl⟩
  unfold veadkOnEnd
  simp [hkind, hdur]

def exToolSpanZero : SpanData :=
  { name := "execute_tool calc"
    attrs := [{ key := AttrGenAIToolName, val := "calc" }]
    startTime := 5
    endTime := 5
    spanContext := { traceID := 3, spanID := 4, traceFlags := 1, traceState := "", remote := false } }

/-- Witness for C8: a concrete tool span with zero duration emits no
metric points and is still exported. -/
theorem toolSpan_nonpositive_duration_no_metrics_witness :
    classifySemanticSpanKind exToolSpanZero.name = SemanticSpanKind.tool
    ∧ exToolSpanZero.endTime - exToolSpanZero.startTime ≤ 0
    ∧ veadkOnEnd exToolSpanZero = []
    ∧ exportTranslatedBatch trivialCodec emptyRegistry [exToolSpanZero]
        = [translateSpan trivialCodec emptyRegistry exToolSpanZero] :=
  ⟨by decide, by decide,
   (toolSpan_nonpositive_duration_no_metrics trivialCodec emptyRegistry exToolSpanZero
      (by decide) (by decide)).1,
   (toolSpan_nonpositive_duration_no_metrics trivialCodec emptyRegistry exToolSpanZero
      (by decide) (by decide)).2.1⟩

/-! ## C10: response-model backfill on model-call spans -/

/-- C10: on a model-call span whose translated attributes carry a non-empty
request model and no (non-empty) response model, translation appends a
response-model attribute whose value is the request model; when the span
is of any other kind, or already carries a non-empty response model, or
carries no non-empty request model, nothing is appended. -/
theorem llm_response_model_backfill {J : Type} (codec : JSONCodec J) (s : SpanData) :
    (classifyTranslatedSpanKind s.name = TranslatedSpanKind.llm →
      (getStringAttrFromList (translatedAttributesBeforeModelPatch codec s) AttrGenAIRequestModel "" ≠ "" →
       getStringAttrFromList (translatedAttributesBeforeModelPatch codec s) AttrGenAIResponseModel "" = "" →
       translatedSpanAttributes codec s
         = translatedAttributesBeforeModelPatch codec s
             ++ [{ key := AttrGenAIResponseModel,
                   val := getStringAttrFromList (translatedAttributesBeforeModelPatch codec s) AttrGenAIRequestModel "" }])
      ∧ (getStringAttrFromList (translatedAttributesBeforeModelPatch codec s) AttrGenAIResponseModel "" ≠ "" →
         translatedSpanAttributes codec s = translatedAttributesBeforeModelPatch codec s)
      ∧ (getStringAttrFromList (translatedAttributesBeforeModelPatch codec s) AttrGenAIRequestModel "" = "" →
         translatedSpanAttributes codec s = translatedAttributesBeforeModelPatch codec s))
    ∧ (classifyTranslatedSpanKind s.name ≠ TranslatedSpanKind.llm →
        translatedSpanAttributes codec s = translatedAttributesBeforeModelPatch codec s) := by
  constructor
  · intro hllm
    refine ⟨?_, ?_, ?_⟩
    · intro hreq hresp
      unfold translatedSpanAttributes
      simp [hllm, hreq, hresp]
    · intro hresp
      unfold translatedSpanAttributes
      simp [hllm, hresp]
    · intro hreq
      unfold translatedSpanAttributes
      simp [hllm, hreq]
  · intro hne
    unfold translatedSpanAttributes
    simp [hne]

def exLLMSpan : SpanData :=
  { name := "call_llm"
    attrs := [{ key := AttrGenAIRequestModel, val := "model-1" }]
    startTime := 0
    endTime := 1
    spanContext := { traceID := 3, spanID := 4, traceFlags := 1, traceState := "", remote := false } }

/-- Witness for C10: a concrete model-call span carrying only a request
model gets the synthesized response-model attribute. -/
theorem llm_response_model_backfill_witness :
    classifyTranslatedSpanKind exLLMSpan.name = TranslatedSpanKind.llm
    ∧ getStringAttrFromList (translatedAttributesBeforeModelPatch trivialCodec exLLMSpan) AttrGenAIRequestModel "" ≠ ""
    ∧ getStringAttrFromList (translatedAttributesBeforeModelPatch trivialCodec exLLMSpan) AttrGenAIResponseModel "" = ""
    ∧ translatedSpanAttributes trivialCodec exLLMSpan
        = translatedAttributesBeforeModelPatch trivialCodec exLLMSpan
            ++ [{ key := AttrGenAIResponseModel,
                  val := getStringAttrFromList (translatedAttributesBeforeModelPatch trivialCodec exLLMSpan) AttrGenAIRequestModel "" }] :=
  ⟨by decide, by decide, by decide,
   ((llm_response_model_backfill trivialCodec exLLMSpan).1 (by decide)).1
     (by decide) (by decide)⟩

/-! ## C9: identifier resolution precedence at span start -/

/-- Helper: the preference order actually implemented — the later source
wins whenever it supplies a non-empty value, the earlier source next, the
sentinel last. -/
def preferNonEmpty (later earlier fallbackVal : String) : String :=
  if later != "" then later else if earlier != "" then earlier else fallbackVal

def cbSessionID (ctx : AmbientContext) : String :=
  match ctx.callback with
  | some c => c.sessionID
  | none => ""

def cbUserID (ctx : AmbientContext) : String :=
  match ctx.callback with
  | some c => c.userID
  | none => ""

def cbAppName (ctx : AmbientContext) : String :=
  match ctx.callback with
  | some c => c.appName
  | none => ""

def cbInvocationID (ctx : AmbientContext) : String :=
  match ctx.callback with
  | some c => c.invocationID
  | none => ""

def cbAgentName (ctx : AmbientContext) : String :=
  match ctx.callback with
  | some c => c.agentName
  | none => ""

def invSessionID (ctx : AmbientContext) : String :=
  match ctx.invocation with
  | some ivc =>
    match ivc.session with
    | some s => s.id
    | none => ""
  | none => ""

def invUserID (ctx : AmbientContext) : String :=
  match ctx.invocation with
  | some ivc =>
    match ivc.session with
    | some s => s.userID
    | none => ""
  | none => ""

def invAppName (ctx : AmbientContext) : String :=
  match ctx.invocation with
  | some ivc =>
    match ivc.session with
    | some s => s.appName
    | none => ""
  | none => ""

def invInvocationID (ctx : AmbientContext) : String :=
  match ctx.invocation with
  | some ivc => ivc.invocationID
  | none => ""

def invAgentName (ctx : AmbientContext) : String :=
  match ctx.invocation with
  | some ivc =>
    match ivc.agentName with
    | some an => an
    | none => ""
  | none => ""

def exAmbientBoth : AmbientContext :=
  { invocation := some
      { session := some { id := "inv-s", userID := "inv-u", appName := "inv-a" }
        invocationID := "inv-i"
        agentName := some "inv-g" }
    callback := some
      { sessionID := "cb-s", userID := "cb-u", appName := "cb-a"
        invocationID := "cb-i", agentName := "cb-g" } }

/-- C9 counterexample: when both context objects supply non-empty values,
the callback context (consulted second) overwrites the values already
obtained from the invocation context (consulted first) — the claimed
never-overwrite property fails on every one of the five identifiers. -/
theorem commonIds_callback_overwrites_counterexample :
    invSessionID exAmbientBoth = "inv-s"
    ∧ cbSessionID exAmbientBoth = "cb-s"
    ∧ setCommonAttributesResolve exAmbientBoth
        = { sessionID := "cb-s", userID := "cb-u", appName := "cb-a"
            invocationID := "cb-i", agentName := "cb-g" }
    ∧ (setCommonAttributesResolve exAmbientBoth).sessionID ≠ "inv-s" := by
  decide

theorem applyCallbackContext_spec (ids : CommonIds) (c : CallbackContextData) :
    applyCallbackContext ids c
      = { sessionID := if c.sessionID != "" then c.sessionID else ids.sessionID
          userID := if c.userID != "" then c.userID else ids.userID
          appName := if c.appName != "" then c.appName else ids.appName
          invocationID := if c.invocationID != "" then c.invocationID else ids.invocationID
          agentName := if c.agentName != "" then c.agentName else ids.agentName } := by
  unfold applyCallbackContext
  split_ifs <;> rfl

theorem applyInvocationContext_spec (ids : CommonIds) (ivc : InvocationContextData) :
    applyInvocationContext ids ivc
      = { sessionID :=
            match ivc.session with
            | some s => if s.id != "" then s.id else ids.sessionID
            | none => ids.sessionID
          userID :=
            match ivc.session with
            | some s => if s.userID != "" then s.userID else ids.userID
            | none => ids.userID
          appName :=
            match ivc.session with
            | some s => if s.appName != "" then s.appName else ids.appName
            | none => ids.appName
          invocationID := if ivc.invocationID != "" then ivc.invocationID else ids.invocationID
          agentName :=
            match ivc.agentName with
            | some an => if an != "" then an else ids.agentName
            | none => ids.agentName } := by
  rcases ivc with ⟨sess, invID, agn⟩
  rcases sess with _ | ⟨sid, suid, sapp⟩ <;> rcases agn with _ | an <;>
    (unfold applyInvocationContext; dsimp only; split_ifs <;> rfl)

/-- C9 amended: the identifiers are resolved with the callback context
taking precedence over the invocation context (a later non-empty value
overwrites an earlier one), and the sentinel is used exactly when neither
context supplies a non-empty value. -/
theorem commonIds_resolution_precedence (ctx : AmbientContext) :
    setCommonAttributesResolve ctx
      = { sessionID := preferNonEmpty (cbSessionID ctx) (invSessionID ctx) FallbackSessionID
          userID := preferNonEmpty (cbUserID ctx) (invUserID ctx) FallbackUserID
          appName := preferNonEmpty (cbAppName ctx) (invAppName ctx) FallbackAppName
          invocationID := preferNonEmpty (cbInvocationID ctx) (invInvocationID ctx) FallbackInvocationID
          agentName := preferNonEmpty (cbAgentName ctx) (invAgentName ctx) FallbackAgentName } := by
  have hemp : (("" : String) != "") = false := by decide
  rcases ctx with ⟨inv, cb⟩
  cases inv with
  | none =>
    cases cb with
    | none => decide
    | some c =>
      unfold setCommonAttributesResolve
      dsimp only
      rw [applyCallbackContext_spec]
      unfold preferNonEmpty cbSessionID cbUserID cbAppName cbInvocationID cbAgentName
        invSessionID invUserID invAppName invInvocationID invAgentName fallbackCommonIds
      simp only [hemp, CommonIds.mk.injEq, if_false]
      refine ⟨?_, ?_, ?_, ?_, ?_⟩ <;> (try split_ifs) <;> simp_all
  | some ivc =>
    cases cb with
    | none =>
      unfold setCommonAttributesResolve
      dsimp only
      rw [applyInvocationContext_spec]
      unfold preferNonEmpty cbSessionID cbUserID cbAppName cbInvocationID cbAgentName
        invSessionID invUserID invAppName invInvocationID invAgentName fallbackCommonIds
      simp only [hemp, CommonIds.mk.injEq, if_false]
      rcases ivc with ⟨sess, invID, agn⟩
      rcases sess with _ | ⟨sid, suid, sapp⟩ <;> rcases agn with _ | an <;>
        (dsimp only; refine ⟨?_, ?_, ?_, ?_, ?_⟩ <;> (try split_ifs) <;> simp_all)
    | some c =>
      unfold setCommonAttributesResolve
      dsimp only
      rw [applyInvocationContext_spec, applyCallbackContext_spec]
      unfold preferNonEmpty cbSessionID cbUserID cbAppName cbInvocationID cbAgentName
        invSessionID invUserID invAppName invInvocationID invAgentName fallbackCommonIds
      simp only [CommonIds.mk.injEq]
      rcases ivc with ⟨sess, invID, agn⟩
      rcases sess with _ | ⟨sid, suid, sapp⟩ <;> rcases agn with _ | an <;>
        (dsimp only; refine ⟨?_, ?_, ?_, ?_, ?_⟩ <;> (try split_ifs) <;> simp_all)

/-! ## C5: first-write-wins of attribute remapping, and duplicates -/

theorem targetKeys_facts :
    ∀ p ∈ ADKAttributeKeyMap,
      isADKInternalAttribute p.1 = true
      ∧ isADKInternalAttribute p.2 = false
      ∧ p.2 ≠ AttrGenAIOperationName
      ∧ p.2 ≠ AttrGenAISystem := by
  decide

theorem patchGenAISystem_key (kv : Attr) : (patchGenAISystem kv).key = kv.key := by
  unfold patchGenAISystem
  split
  · next h =>
    have := (Bool.and_eq_true _ _).mp h
    simp only [beq_iff_eq] at this
    exact this.1.symm
  · rfl

theorem patchGenAISystem_noop (kv : Attr) (h : kv.key ≠ AttrGenAISystem) :
    patchGenAISystem kv = kv := by
  unfold patchGenAISystem
  rw [if_neg]
  simp [h]

theorem normalizeOperationName_key (kind : TranslatedSpanKind) (kv : Attr) :
    (normalizeOperationNameBySpanKind kind kv.key kv).key = kv.key := by
  unfold normalizeOperationNameBySpanKind
  split_ifs with h1 h2 h3 <;> try rfl
  · simp only [bne_iff_ne, ne_eq, not_not] at h1
    exact h1.symm
  · simp only [bne_iff_ne, ne_eq, not_not] at h1
    exact h1.symm

theorem normalizeOperationName_noop (kind : TranslatedSpanKind) (kv : Attr)
    (h : kv.key ≠ AttrGenAIOperationName) :
    normalizeOperationNameBySpanKind kind kv.key kv = kv := by
  unfold normalizeOperationNameBySpanKind
  rw [if_pos]
  simp [h]

theorem lookupAssoc_mem :
    ∀ (l : List (String × String)) (key t : String),
      (l.find? (fun p => p.1 == key)).map Prod.snd = some t → (key, t) ∈ l := by
  intro l
  induction l with
  | nil =>
    intro key t h
    simp at h
  | cons hd tl ih =>
    intro key t h
    by_cases hk : (hd.1 == key) = true
    · simp only [List.find?, hk] at h
      rcases hd with ⟨h1, h2⟩
      exact List.mem_cons.mpr (Or.inl (by simp_all))
    · have hk2 : (hd.1 == key) = false := by
        simpa using hk
      simp only [List.find?, hk2] at h
      exact List.mem_cons_of_mem _ (ih key t h)

theorem lookupADKKey_mem (key t : String) (h : lookupADKKey key = some t) :
    (key, t) ∈ ADKAttributeKeyMap := by
  unfold lookupADKKey at h
  exact lookupAssoc_mem ADKAttributeKeyMap key t h

theorem processAttributes_no_internal (kind : TranslatedSpanKind)
    (existingKeys : List String) :
    ∀ attrs, ∀ kv ∈ processAttributesByKind kind existingKeys attrs,
      isADKInternalAttribute kv.key = false := by
  intro attrs
  induction attrs with
  | nil =>
    intro kv h
    exact absurd h (List.not_mem_nil kv)
  | cons kv0 rest ih =>
    intro kv hmem
    simp only [processAttributesByKind] at hmem
    by_cases hint : isADKInternalAttribute kv0.key = true
    · rw [if_pos hint] at hmem
      rcases hlk : lookupADKKey kv0.key with _ | t
      · simp only [hlk] at hmem
        exact ih kv hmem
      · simp only [hlk] at hmem
        by_cases hskip : shouldSkipMappedToolAttribute t = true
        · rw [if_pos hskip] at hmem
          exact ih kv hmem
        · rw [if_neg hskip] at hmem
          by_cases hex : hasExistingKey existingKeys t = true
          · rw [if_pos hex] at hmem
            exact ih kv hmem
          · rw [if_neg hex] at hmem
            rcases List.mem_cons.mp hmem with hhd | htl
            · have hfacts := targetKeys_facts _ (lookupADKKey_mem kv0.key t hlk)
              rw [hhd]
              exact hfacts.2.1
            · exact ih kv htl
    · rw [if_neg hint] at hmem
      rcases List.mem_cons.mp hmem with hhd | htl
      · rw [hhd]
        rw [patchGenAISystem_key, normalizeOperationName_key]
        simpa using hint
      · exact ih kv htl

theorem processAttributes_filter_target (kind : TranslatedSpanKind)
    (existingKeys : List String) (targetKey : String)
    (hex : hasExistingKey existingKeys targetKey = true)
    (hti : isADKInternalAttribute targetKey = false)
    (hop : targetKey ≠ AttrGenAIOperationName)
    (hsys : targetKey ≠ AttrGenAISystem) :
    ∀ attrs, (processAttributesByKind kind existingKeys attrs).filter (fun kv => kv.key == targetKey)
      = attrs.filter (fun kv => kv.key == targetKey) := by
  intro attrs
  induction attrs with
  | nil => rfl
  | cons kv0 rest ih =>
    simp only [processAttributesByKind]
    by_cases hint : isADKInternalAttribute kv0.key = true
    · have hne0 : (kv0.key == targetKey) = false := by
        rw [beq_eq_false_iff_ne]
        intro hcontra
        rw [hcontra] at hint
        rw [hti] at hint
        exact Bool.noConfusion hint
      rw [if_pos hint]
      rcases hlk : lookupADKKey kv0.key with _ | t
      · simp only [hlk]
        rw [ih]
        simp [List.filter_cons, hne0]
      · simp only [hlk]
        by_cases hskip : shouldSkipMappedToolAttribute t = true
        · rw [if_pos hskip, ih]
          simp [List.filter_cons, hne0]
        · rw [if_neg hskip]
          by_cases ht : t = targetKey
          · rw [if_pos (by rw [ht]; exact hex), ih]
            simp [List.filter_cons, hne0]
          · have ht2 : (t == targetKey) = false := by
              rw [beq_eq_false_iff_ne]
              exact ht
            by_cases hex2 : hasExistingKey existingKeys t = true
            · rw [if_pos hex2, ih]
              simp [List.filter_cons, hne0]
            · rw [if_neg hex2]
              simp only [List.filter_cons, ht2, hne0, Bool.false_eq_true, if_false]
              exact ih
    · rw [if_neg hint]
      by_cases hk : kv0.key = targetKey
      · have hnorm : normalizeOperationNameBySpanKind kind kv0.key kv0 = kv0 :=
          normalizeOperationName_noop kind kv0 (by rw [hk]; exact hop)
        have hpatch : patchGenAISystem kv0 = kv0 :=
          patchGenAISystem_noop kv0 (by rw [hk]; exact hsys)
        have hkeep : (kv0.key == targetKey) = true := by
          rw [beq_iff_eq]
          exact hk
        rw [hnorm, hpatch]
        simp only [List.filter_cons, hkeep, if_true]
        rw [ih]
      · have hkeyeq : (patchGenAISystem (normalizeOperationNameBySpanKind kind kv0.key kv0)).key = kv0.key := by
          rw [patchGenAISystem_key, normalizeOperationName_key]
        have hdrop0 : (kv0.key == targetKey) = false := by
          rw [beq_eq_false_iff_ne]
          exact hk
        simp only [List.filter_cons, hkeyeq, hdrop0, Bool.false_eq_true, if_false]
        exact ih

/-- C5 amended: attribute remapping proper is first-write-wins — for any
rename-table pair whose standard target key the span already carries, the
remapping stage preserves the pre-existing standard occurrences unchanged
(the internal value is discarded, no duplicate is introduced by the rename
table) and no internal (ADK-prefixed) key survives; the appending stages
(tool payload reconstruction and the tool span-kind marker) are excluded,
as they append without consulting existing keys. -/
theorem attr_remap_first_write_wins (kind : TranslatedSpanKind)
    (attrs : List Attr) (internalKey targetKey : String)
    (hmem : (internalKey, targetKey) ∈ ADKAttributeKeyMap)
    (hcarried : hasExistingKey (attrs.map Attr.key) targetKey = true) :
    (processAttributesByKind kind (attrs.map Attr.key) attrs).filter
        (fun kv => kv.key == targetKey)
      = attrs.filter (fun kv => kv.key == targetKey)
    ∧ ∀ kv ∈ processAttributesByKind kind (attrs.map Attr.key) attrs,
        isADKInternalAttribute kv.key = false := by
  have hfacts := targetKeys_facts _ hmem
  exact ⟨processAttributes_filter_target kind (attrs.map Attr.key) targetKey
           hcarried hfacts.2.1 hfacts.2.2.1 hfacts.2.2.2 attrs,
         fun kv hkv =>
           processAttributes_no_internal kind (attrs.map Attr.key) attrs kv hkv⟩

def exDupSpan : SpanData :=
  { name := "custom_span"
    attrs := [{ key := AttrGenAISpanKind, val := SpanKindTool },
              { key := AttrGenAIToolName, val := "calc" }]
    startTime := 0
    endTime := 1
    spanContext := { traceID := 3, spanID := 4, traceFlags := 1, traceState := "", remote := false } }

/-- C5 counterexample: a span that already carries the standard
gen_ai.span.kind key together with a tool name is translated into an
attribute list holding that standard key twice — the tool span-kind marker
appends without checking the keys the span already carried. -/
theorem translated_duplicate_spanKind_counterexample :
    (exDupSpan.attrs.filter (fun kv => kv.key == AttrGenAISpanKind)).length = 1
    ∧ ((translatedSpanAttributes trivialCodec exDupSpan).filter
        (fun kv => kv.key == AttrGenAISpanKind)).length = 2 := by
  decide

def exRemapSpan : SpanData :=
  { name := "custom_span"
    attrs := [{ key := ADKAttrSessionID, val := "internal-s" },
              { key := AttrGenAISessionID, val := "standard-s" }]
    startTime := 0
    endTime := 1
    spanContext := { traceID := 3, spanID := 4, traceFlags := 1, traceState := "", remote := false } }

/-- Witness for the amended C5: a span carrying both the internal session
key and the standard session key keeps exactly the standard occurrence. -/
theorem attr_remap_first_write_wins_witness :
    (ADKAttrSessionID, AttrGenAISessionID) ∈ ADKAttributeKeyMap
    ∧ hasExistingKey (exRemapSpan.attrs.map Attr.key) AttrGenAISessionID = true
    ∧ (processAttributesByKind (classifyTranslatedSpanKind exRemapSpan.name)
          (exRemapSpan.attrs.map Attr.key) exRemapSpan.attrs).filter
          (fun kv => kv.key == AttrGenAISessionID)
        = exRemapSpan.attrs.filter (fun kv => kv.key == AttrGenAISessionID) :=
  ⟨by decide, by decide,
   (attr_remap_first_write_wins (classifyTranslatedSpanKind exRemapSpan.name)
      exRemapSpan.attrs ADKAttrSessionID AttrGenAISessionID
      (by decide) (by decide)).1⟩
